import Mathlib

/-!
Verification of the WhatsEase client messaging core against its
natural-language specification.  The definitions below are a shallow
embedding of the JavaScript source:

* `frontend/src/components/Chat/ChatWindow.jsx` — message loading,
  the push-message handler effect, and the optimistic send path;
* `frontend/src/components/Chat/MessageInput.jsx` — the input guard;
* `frontend/src/context/WebSocketContext.jsx` — outgoing event
  construction and the reconnect state machine;
* `ChatList` (`processedChats`) and `ChatDashboard` (`handleChatSelect`,
  the `user_status_change` handler) — bot pinning and presence;
* the date/time utility module (`utcToLocal` and the formatters).

React state setters are modelled as explicit state passing; awaited
network calls are split into a start step (up to the `await`) and a
success / failure continuation.
-/

namespace WhatsEase

/-- A chat message as the client stores it (the JSON object shape used in
`ChatWindow.jsx`: `message_id`, `sender`, `recipient`, `content`,
`timestamp`, `status`, `reply_to`, `edited`). -/
structure Msg where
  message_id : String
  sender : String
  recipient : String
  content : String
  timestamp : String
  status : String
  reply_to : Option String
  edited : Bool
deriving DecidableEq, Repr

/-- The `ChatWindow` component state that the claims are about:
`messages`, `error`, `isSending`, `isTyping`, `loading`
(`replyTo` is routed through `handleSendMessage`'s argument). -/
structure ChatState where
  messages : List Msg
  error : Option String
  isSending : Bool
  isTyping : Bool
  loading : Bool
deriving DecidableEq, Repr

/-- An incoming push-channel envelope as seen by the `ChatWindow` handler.
`data` is `wsMessage.data`; `envelope` stands for the `wsMessage` object
itself, used as the payload fallback in `wsMessage.data || wsMessage`.
`typing_sender` / `typing_is_typing` are the fields the `typing` branch
reads from `wsMessage.data`. -/
structure WsEvent where
  type : String
  data : Option Msg
  envelope : Msg
  typing_sender : String
  typing_is_typing : Bool
deriving DecidableEq, Repr

/-- `wsMessage.data || wsMessage` (ChatWindow.jsx line 51). -/
def WsEvent.effData (e : WsEvent) : Msg :=
  e.data.getD e.envelope

/-- An outgoing push-channel envelope built by `sendMessage` in
`WebSocketContext.jsx`: `{type, data, timestamp}` where the data object of
the status events carries `message_id` and `sender`. -/
structure OutMsg where
  type : String
  data_message_id : String
  data_sender : String
  timestamp : String
deriving DecidableEq, Repr

/-- `markAsRead` (WebSocketContext.jsx lines 155-160): sends a
`mark_read` envelope for one message id and its sender. -/
def markAsRead (messageId senderEmail ts : String) : OutMsg :=
  { type := "mark_read", data_message_id := messageId,
    data_sender := senderEmail, timestamp := ts }

/-- `markAsDelivered` (WebSocketContext.jsx lines 145-150): sends a
`mark_delivered` envelope for one message id and its sender. -/
def markAsDelivered (messageId senderEmail ts : String) : OutMsg :=
  { type := "mark_delivered", data_message_id := messageId,
    data_sender := senderEmail, timestamp := ts }

/-- The sender/recipient test of the push handler (ChatWindow.jsx
lines 53-56): the payload belongs to the open conversation between
`cur` (currentUser.email) and `other` (chat.other_user_email). -/
def pairMatches (cur other : String) (d : Msg) : Prop :=
  (d.sender = other ∧ d.recipient = cur) ∨
  (d.sender = cur ∧ d.recipient = other)

instance (cur other : String) (d : Msg) : Decidable (pairMatches cur other d) := by
  unfold pairMatches; infer_instance

/-- The push-message handler effect of `ChatWindow` (lines 49-73).
Returns the updated component state together with the list of outgoing
envelopes emitted through the websocket (`markAsRead` calls); `ts` is the
timestamp `sendMessage` stamps on an outgoing envelope. -/
def handleWsMessage (cur other ts : String) (s : ChatState) (e : WsEvent) :
    ChatState × List OutMsg :=
  if e.type = "new_message" ∨ e.type = "message" then
    if pairMatches cur other e.effData then
      ({ s with messages :=
          if s.messages.any (fun m => m.message_id = e.effData.message_id) then
            s.messages
          else s.messages ++ [e.effData] },
       if e.effData.sender = other then [markAsRead e.effData.message_id other ts]
       else [])
    else (s, [])
  else if e.type = "typing" then
    (if e.typing_sender = other then { s with isTyping := e.typing_is_typing } else s, [])
  else (s, [])

/-- `loadMessages` (ChatWindow.jsx lines 25-44), success path after the
`await`: `resp` is `response.messages` when present (`response &&
response.messages`), and the displayed list is its reversal. -/
def loadMessages (s : ChatState) (resp : Option (List Msg)) : ChatState :=
  match resp with
  | some ms => { s with messages := ms.reverse, loading := false, error := none }
  | none => { s with messages := [], loading := false, error := none }

/-- A durable (pull-interface) call issued by the client. -/
inductive ApiCall where
  | sendMessage (recipient content : String) (replyTo : Option String)
  | sendBotMessage (recipient content : String) (replyTo : Option String)
deriving DecidableEq, Repr

/-- The automated correspondent's identity. -/
def botEmail : String := "bot@whatsease.com"

/-- JavaScript's `String.prototype.trim()`: strip leading and trailing
whitespace (modelled over the string's character list so that it is
kernel-evaluable). -/
def jsTrim (s : String) : String :=
  ⟨((s.data.dropWhile Char.isWhitespace).reverse.dropWhile
      Char.isWhitespace).reverse⟩

/-- The optimistic placeholder built by `handleSendMessage`
(ChatWindow.jsx lines 95-104); `nowId` stands for `Date.now()` and
`nowTs` for `new Date().toISOString()`. -/
def optimisticMessage (cur other content : String) (replyTo : Option String)
    (nowId nowTs : String) : Msg :=
  { message_id := "temp-" ++ nowId, sender := cur, recipient := other,
    content := jsTrim content, timestamp := nowTs, status := "Sending",
    reply_to := replyTo, edited := false }

/-- `handleSendMessage` up to the `await` (ChatWindow.jsx lines 86-124):
the guard `!content || !content.trim() || isSending` returns with nothing
done; otherwise the placeholder is appended, `isSending` set, `error`
cleared, and one durable send call is issued (the bot variant when the
recipient is the bot). -/
def sendAttempt (cur other : String) (s : ChatState) (content : String)
    (replyTo : Option String) (nowId nowTs : String) : ChatState × List ApiCall :=
  if content = "" ∨ jsTrim content = "" ∨ s.isSending then (s, [])
  else
    let opt := optimisticMessage cur other content replyTo nowId nowTs
    ({ s with messages := s.messages ++ [opt], isSending := true, error := none },
     [if other = botEmail then ApiCall.sendBotMessage other (jsTrim content) replyTo
      else ApiCall.sendMessage other (jsTrim content) replyTo])

/-- The success continuation of `handleSendMessage` (lines 126-131, 147):
every message whose id equals the placeholder's id is replaced by the
returned authoritative message, and `isSending` is cleared. -/
def sendSuccess (s : ChatState) (tempId : String) (nm : Msg) : ChatState :=
  { s with
    messages := s.messages.map (fun m => if m.message_id = tempId then nm else m),
    isSending := false }

/-- The failure continuation of `handleSendMessage` (lines 138-147): the
error banner is set, the placeholder filtered out, `isSending` cleared,
and no durable call is issued. -/
def sendFail (s : ChatState) (tempId : String) : ChatState × List ApiCall :=
  ({ s with
     error := some "Failed to send message. Please try again.",
     messages := s.messages.filter (fun m => m.message_id ≠ tempId),
     isSending := false }, [])

/-- `handleSend` in `MessageInput.jsx` (lines 56-80): `none` when the
trimmed message is empty or the input is disabled, otherwise the
`(trimmedMessage, replyTo?.message_id)` pair handed to `onSend`. -/
def messageInputSend (message : String) (disabled : Bool)
    (replyToId : Option String) : Option (String × Option String) :=
  if jsTrim message = "" ∨ disabled then none
  else some (jsTrim message, replyToId)

/-- A chat-list entry as the dashboard stores it (the shape used by
`ChatList` and `ChatDashboard`). -/
structure ChatEntry where
  id : Option String
  other_user_email : String
  other_user_username : String
  last_message : Option String
  last_message_time : Option String
  unread_count : Nat
  is_online : Bool
deriving DecidableEq, Repr

/-- The fallback bot entry `ChatList` fabricates when the API response
holds no bot chat (ChatList lines 22-31); `now` is
`new Date().toISOString()`. -/
def defaultBotChat (now : String) : ChatEntry :=
  { id := some "bot-chat", other_user_email := botEmail,
    other_user_username := "AI Assistant", last_message_time := some now,
    last_message := some "Hello! 👋 How can I help you today?",
    unread_count := 0, is_online := true }

/-- `processedChats` in `ChatList` (lines 16-38): the first bot entry (or
the fabricated default) is forced online and placed at the head, followed
by the non-bot chats. -/
def processedChats (now : String) (chats : List ChatEntry) : List ChatEntry :=
  { (chats.find? (fun c => c.other_user_email = botEmail)).getD (defaultBotChat now)
      with is_online := true } ::
    chats.filter (fun c => ¬ c.other_user_email = botEmail)

/-- `handleChatSelect` in `ChatDashboard.jsx` (lines 107-118): the
selected chat is re-stamped with the current online status, the bot
always online. -/
def handleChatSelect (onlineUsers : List String) (chat : ChatEntry) : ChatEntry :=
  { chat with
    is_online :=
      if chat.other_user_email = botEmail then true
      else onlineUsers.contains chat.other_user_email || chat.is_online }

/-- The `user_status_change` branch of the `ChatDashboard` websocket
handler (lines 50-57): every chat with the affected email has its
`is_online` flag overwritten. -/
def applyStatusChange (chats : List ChatEntry) (userEmail : String)
    (isOnline : Bool) : List ChatEntry :=
  chats.map (fun c =>
    if c.other_user_email = userEmail then { c with is_online := isOnline } else c)

/-! ### Reconnect state machine (`WebSocketContext.jsx`) -/

/-- `maxReconnectAttempts` (WebSocketContext.jsx line 22). -/
def maxReconnectAttempts : Nat := 5

/-- The fixed reconnect delay, milliseconds (the `setTimeout` literal on
line 75). -/
def reconnectDelayMs : Nat := 3000

/-- Client connection state: `reconnectAttemptsRef.current`, the pending
reconnect timer (with its delay) and `isConnected`. -/
structure WsConnState where
  attempts : Nat
  timer : Option Nat
  connected : Bool
deriving DecidableEq, Repr

/-- The events driving the reconnect machine: `ws.onopen`, `ws.onclose`,
and the firing of the scheduled `setTimeout` callback. -/
inductive WsEvt where
  | wsOpen
  | wsClose
  | timerFire
deriving DecidableEq, Repr

/-- One step of the reconnect machine, from the handlers in `connect`
(WebSocketContext.jsx lines 38-77): `onopen` marks connected and resets
the attempt counter to 0; `onclose` marks disconnected and, only while
`attempts < maxReconnectAttempts`, schedules one reconnect after the
fixed delay; the timer callback increments the counter and calls
`connect` again. -/
def wsStep (s : WsConnState) : WsEvt → WsConnState
  | WsEvt.wsOpen => { s with connected := true, attempts := 0 }
  | WsEvt.wsClose =>
      if s.attempts < maxReconnectAttempts then
        { s with connected := false, timer := some reconnectDelayMs }
      else
        { s with connected := false }
  | WsEvt.timerFire =>
      match s.timer with
      | some _ => { s with timer := none, attempts := s.attempts + 1 }
      | none => s

/-- The initial connection state: counter 0, no timer, not connected. -/
def wsInit : WsConnState :=
  { attempts := 0, timer := none, connected := false }

/-- Run the reconnect machine over a list of events from the initial
state. -/
def runWs (tr : List WsEvt) : WsConnState :=
  tr.foldl wsStep wsInit

/-! ### Date/time utilities (`utcToLocal` and the formatters)

Timestamps entering the utilities are JavaScript values; JS `Date`
parsing and locale rendering are environment functions, passed in as
parameters (`parse` for `new Date(string)` — `none` when the result is
an Invalid Date — and `render…` for the `toLocale…String` calls).
Instants are milliseconds since the epoch, as `Int`. -/

/-- `s.endsWith('Z')` for the one-character suffix the utilities test:
the string's last character is `'Z'` (modelled over the character list so
that it is kernel-evaluable). -/
def endsWithZ (s : String) : Bool :=
  s.data.getLast? = some 'Z'

/-- A JavaScript value handed to a timestamp utility. -/
inductive TSInput where
  | tsNull
  | tsUndef
  | str (s : String)
  | num (n : Int)
  | dateVal (t : Option Int)
deriving DecidableEq, Repr

/-- JS falsiness of a timestamp input — the `if (!utcTimestamp)` guard:
`null`, `undefined`, the empty string and the number 0 are falsy; a
`Date` object is always truthy. -/
def jsFalsy : TSInput → Bool
  | TSInput.tsNull => true
  | TSInput.tsUndef => true
  | TSInput.str s => s = ""
  | TSInput.num n => n = 0
  | TSInput.dateVal _ => false

/-- `utcToLocal` (dateUtils lines 9-41): falsy input returns null; a
string is parsed as UTC, with `'Z'` appended when it does not already end
in `'Z'`; a `Date` passes through; anything else goes through
`new Date(x)`; an invalid result returns null. -/
def utcToLocal (parse : String → Option Int) : TSInput → Option Int
  | v =>
    if jsFalsy v then none
    else
      match v with
      | TSInput.tsNull => none
      | TSInput.tsUndef => none
      | TSInput.str s => if endsWithZ s then parse s else parse (s ++ "Z")
      | TSInput.num n => some n
      | TSInput.dateVal t => t

/-- The raw `new Date(x)` conversion, without `utcToLocal`'s falsy guard:
what "parses to a valid date" means for an input. -/
def parsedValue (parse : String → Option Int) : TSInput → Option Int
  | TSInput.tsNull => none
  | TSInput.tsUndef => none
  | TSInput.str s => if endsWithZ s then parse s else parse (s ++ "Z")
  | TSInput.num n => some n
  | TSInput.dateVal t => t

/-- `formatTime` (lines 46-55): empty string when `utcToLocal` gives
null, else the locale time rendering. -/
def formatTime (parse : String → Option Int) (renderTime : Int → String)
    (v : TSInput) : String :=
  match utcToLocal parse v with
  | none => ""
  | some d => renderTime d

/-- `formatDate` (lines 60-69). -/
def formatDate (parse : String → Option Int) (renderDate : Int → String)
    (v : TSInput) : String :=
  match utcToLocal parse v with
  | none => ""
  | some d => renderDate d

/-- `formatDateTime` (lines 102-114). -/
def formatDateTime (parse : String → Option Int) (renderDateTime : Int → String)
    (v : TSInput) : String :=
  match utcToLocal parse v with
  | none => ""
  | some d => renderDateTime d

/-- `formatRelativeTime` (lines 74-97): the minute/hour/day buckets
(`Math.floor` is floor division), falling back to `formatDate` past a
week. -/
def formatRelativeTime (parse : String → Option Int) (renderDate : Int → String)
    (now : Int) (v : TSInput) : String :=
  match utcToLocal parse v with
  | none => ""
  | some d =>
    let diffInMs := now - d
    let diffInMinutes := Int.fdiv diffInMs (1000 * 60)
    let diffInHours := Int.fdiv diffInMs (1000 * 60 * 60)
    let diffInDays := Int.fdiv diffInMs (1000 * 60 * 60 * 24)
    if diffInMinutes < 1 then "Just now"
    else if diffInMinutes < 60 then toString diffInMinutes ++ "m ago"
    else if diffInHours < 24 then toString diffInHours ++ "h ago"
    else if diffInDays = 1 then "Yesterday"
    else if diffInDays < 7 then toString diffInDays ++ "d ago"
    else formatDate parse renderDate v

/-- `formatChatTimestamp` (lines 163-186): like `formatRelativeTime` but
with weekday / month-day renderings for the older buckets. -/
def formatChatTimestamp (parse : String → Option Int)
    (renderWeekday renderMonthDay : Int → String) (now : Int) (v : TSInput) : String :=
  match utcToLocal parse v with
  | none => ""
  | some d =>
    let diffInMs := now - d
    let diffInMinutes := Int.fdiv diffInMs (1000 * 60)
    let diffInHours := Int.fdiv diffInMs (1000 * 60 * 60)
    let diffInDays := Int.fdiv diffInMs (1000 * 60 * 60 * 24)
    if diffInMinutes < 1 then "Just now"
    else if diffInMinutes < 60 then toString diffInMinutes ++ "m ago"
    else if diffInHours < 24 then toString diffInHours ++ "h ago"
    else if diffInDays = 1 then "Yesterday"
    else if diffInDays < 7 then renderWeekday d
    else renderMonthDay d

/-- `getTimeAgo` (lines 191-212): second-based buckets with pluralised
words, falling back to `formatDate` past a week. -/
def getTimeAgo (parse : String → Option Int) (renderDate : Int → String)
    (now : Int) (v : TSInput) : String :=
  match utcToLocal parse v with
  | none => ""
  | some d =>
    let diffInSeconds := Int.fdiv (now - d) 1000
    if diffInSeconds < 60 then "just now"
    else if diffInSeconds < 3600 then
      let minutes := Int.fdiv diffInSeconds 60
      toString minutes ++ " minute" ++ (if minutes > 1 then "s" else "") ++ " ago"
    else if diffInSeconds < 86400 then
      let hours := Int.fdiv diffInSeconds 3600
      toString hours ++ " hour" ++ (if hours > 1 then "s" else "") ++ " ago"
    else if diffInSeconds < 604800 then
      let days := Int.fdiv diffInSeconds 86400
      toString days ++ " day" ++ (if days > 1 then "s" else "") ++ " ago"
    else formatDate parse renderDate v

/-- `getDateSeparator` (lines 135-158): `dateOnly` maps an instant to the
local midnight of its day (the `new Date(getFullYear, getMonth,
getDate)` construction); day-difference buckets select Today / Yesterday
/ weekday / long date. -/
def getDateSeparator (parse : String → Option Int) (dateOnly : Int → Int)
    (renderWeekday renderLongDate : Int → String) (now : Int) (v : TSInput) : String :=
  match utcToLocal parse v with
  | none => ""
  | some d =>
    let diffInDays := Int.fdiv (dateOnly now - dateOnly d) (1000 * 60 * 60 * 24)
    if diffInDays = 0 then "Today"
    else if diffInDays = 1 then "Yesterday"
    else if diffInDays < 7 then renderWeekday d
    else renderLongDate d

/-- The `ChatWindow` state before any message is shown: empty list, no
error, not sending, not typing, not loading. -/
def emptyChat : ChatState :=
  { messages := [], error := none, isSending := false, isTyping := false,
    loading := false }

/-- The authoritative message of Scenario E: the coordinator-assigned
identifier `m42` for the optimistic "hello" send. -/
def m42 : Msg :=
  { message_id := "m42", sender := "alice@example.com",
    recipient := "bob@example.com", content := "hello", timestamp := "T1",
    status := "Sent", reply_to := none, edited := false }

/-- The push-channel echo of `m42`, as the `ChatWindow` handler
receives it. -/
def echoEvt : WsEvent :=
  { type := "new_message", data := some m42, envelope := m42,
    typing_sender := "", typing_is_typing := false }

/-- An incoming message from the open conversation's partner
(`bob` to `alice`), used to exercise the push handler. -/
def incomingMsg : Msg :=
  { message_id := "m7", sender := "bob@example.com",
    recipient := "alice@example.com", content := "yo", timestamp := "T3",
    status := "Sent", reply_to := none, edited := false }

/-- The push envelope carrying `incomingMsg`. -/
def incomingEvt : WsEvent :=
  { type := "new_message", data := some incomingMsg, envelope := incomingMsg,
    typing_sender := "", typing_is_typing := false }

/-- A reconnect-machine trace that exhausts the attempt budget: five
unexpected closes, each followed by the scheduled timer firing. -/
def exhaustedTrace : List WsEvt :=
  [WsEvt.wsClose, WsEvt.timerFire, WsEvt.wsClose, WsEvt.timerFire,
   WsEvt.wsClose, WsEvt.timerFire, WsEvt.wsClose, WsEvt.timerFire,
   WsEvt.wsClose, WsEvt.timerFire]

/-- An event of a type the `ChatWindow` handler does not recognize. -/
def unknownEvt : WsEvent :=
  { type := "presence_change", data := none, envelope := incomingMsg,
    typing_sender := "", typing_is_typing := false }

/-!  ## Helper lemmas  -/

/-- A passing guard appends exactly the optimistic placeholder. -/
lemma sendAttempt_messages (cur other : String) (s : ChatState)
    (content : String) (replyTo : Option String) (nowId nowTs : String)
    (hc : ¬(content = "" ∨ jsTrim content = "" ∨ s.isSending = true)) :
    (sendAttempt cur other s content replyTo nowId nowTs).1.messages
      = s.messages ++ [optimisticMessage cur other content replyTo nowId nowTs] := by
  unfold sendAttempt
  rw [if_neg hc]

/-- When the placeholder's temporary id is fresh, the success
continuation rewrites the list to the prior messages followed by the
authoritative message. -/
lemma sendSuccess_messages (cur other : String) (s : ChatState)
    (content : String) (replyTo : Option String) (nowId nowTs : String) (nm : Msg)
    (hc : ¬(content = "" ∨ jsTrim content = "" ∨ s.isSending = true))
    (hfresh : ∀ m ∈ s.messages, m.message_id ≠ "temp-" ++ nowId) :
    (sendSuccess (sendAttempt cur other s content replyTo nowId nowTs).1
        ("temp-" ++ nowId) nm).messages = s.messages ++ [nm] := by
  show ((sendAttempt cur other s content replyTo nowId nowTs).1.messages).map
      (fun m => if m.message_id = "temp-" ++ nowId then nm else m)
    = s.messages ++ [nm]
  rw [sendAttempt_messages cur other s content replyTo nowId nowTs hc,
    List.map_append]
  congr 1
  · conv_rhs => rw [← List.map_id s.messages]
    apply List.map_congr_left
    intro m hm
    simp [hfresh m hm]
  · simp [optimisticMessage]

/-!  ## Claims  -/

/-- C4: for every send of non-empty content, the client immediately
appends a placeholder carrying a `temp-` identifier and `Sending`
status, and when the durable call returns, exactly that placeholder — no
other message — is replaced in place by the returned message. -/
theorem c4_placeholder_replaced_in_place (cur other : String) (s : ChatState)
    (content : String) (replyTo : Option String) (nowId nowTs : String) (nm : Msg)
    (hc : ¬(content = "" ∨ jsTrim content = "" ∨ s.isSending = true))
    (hfresh : ∀ m ∈ s.messages, m.message_id ≠ "temp-" ++ nowId) :
    (sendAttempt cur other s content replyTo nowId nowTs).1.messages
      = s.messages ++ [optimisticMessage cur other content replyTo nowId nowTs] ∧
    (optimisticMessage cur other content replyTo nowId nowTs).message_id
      = "temp-" ++ nowId ∧
    (optimisticMessage cur other content replyTo nowId nowTs).status = "Sending" ∧
    (sendSuccess (sendAttempt cur other s content replyTo nowId nowTs).1
        ("temp-" ++ nowId) nm).messages = s.messages ++ [nm] := by
  exact ⟨sendAttempt_messages cur other s content replyTo nowId nowTs hc, rfl, rfl,
    sendSuccess_messages cur other s content replyTo nowId nowTs nm hc hfresh⟩

/-- Witness for C4 at a concrete send from an empty conversation. -/
theorem c4_witness :
    (sendSuccess (sendAttempt "alice@example.com" "bob@example.com" emptyChat
        "hello" none "100" "T0").1 ("temp-" ++ "100") m42).messages = [] ++ [m42] :=
  (c4_placeholder_replaced_in_place "alice@example.com" "bob@example.com"
    emptyChat "hello" none "100" "T0" m42 (by decide) (by intro m hm; cases hm)).2.2.2

/-- C5: when the durable send call fails, the placeholder is removed, the
failure is surfaced in the error banner, no durable call is re-issued, and
the displayed conversation is exactly what it was before the send. -/
theorem c5_send_failure_atomic (cur other : String) (s : ChatState)
    (content : String) (replyTo : Option String) (nowId nowTs : String)
    (hc : ¬(content = "" ∨ jsTrim content = "" ∨ s.isSending = true))
    (hfresh : ∀ m ∈ s.messages, m.message_id ≠ "temp-" ++ nowId) :
    (sendFail (sendAttempt cur other s content replyTo nowId nowTs).1
        ("temp-" ++ nowId)).1.messages = s.messages ∧
    (sendFail (sendAttempt cur other s content replyTo nowId nowTs).1
        ("temp-" ++ nowId)).1.error
      = some "Failed to send message. Please try again." ∧
    (sendFail (sendAttempt cur other s content replyTo nowId nowTs).1
        ("temp-" ++ nowId)).2 = [] := by
  have hmsgs := sendAttempt_messages cur other s content replyTo nowId nowTs hc
  refine ⟨?_, rfl, rfl⟩
  unfold sendFail
  simp only [hmsgs, List.filter_append]
  have h1 : s.messages.filter (fun m => m.message_id ≠ "temp-" ++ nowId)
      = s.messages := by
    apply List.filter_eq_self.2
    intro m hm
    simpa using hfresh m hm
  have h2 : [optimisticMessage cur other content replyTo nowId nowTs].filter
      (fun m => m.message_id ≠ "temp-" ++ nowId) = [] := by
    simp [optimisticMessage]
  rw [h1, h2, List.append_nil]

/-- Witness for C5 at a concrete failing send from an empty
conversation. -/
theorem c5_witness :
    (sendFail (sendAttempt "alice@example.com" "bob@example.com" emptyChat
        "hello" none "100" "T0").1 ("temp-" ++ "100")).1.messages = [] :=
  (c5_send_failure_atomic "alice@example.com" "bob@example.com" emptyChat
    "hello" none "100" "T0" (by decide) (by intro m hm; cases hm)).1

/-- C7: a send whose content is empty or whitespace-only is rejected
synchronously: `handleSendMessage` issues no durable call and changes no
state, and `MessageInput.handleSend` never forwards such input. -/
theorem c7_empty_content_rejected (cur other : String) (s : ChatState)
    (content : String) (replyTo : Option String) (nowId nowTs : String)
    (disabled : Bool) (h : jsTrim content = "") :
    sendAttempt cur other s content replyTo nowId nowTs = (s, []) ∧
    messageInputSend content disabled replyTo = none := by
  constructor
  · unfold sendAttempt
    rw [if_pos (Or.inr (Or.inl h))]
  · unfold messageInputSend
    rw [if_pos (Or.inl h)]

/-- Witness for C7 on a whitespace-only input. -/
theorem c7_witness :
    sendAttempt "alice@example.com" "bob@example.com" emptyChat "   " none
      "100" "T0" = (emptyChat, []) ∧
    messageInputSend "   " false none = none :=
  c7_empty_content_rejected "alice@example.com" "bob@example.com" emptyChat
    "   " none "100" "T0" false (by decide)

/-- C8: for every conversation response, the message sequence the client
displays is the exact reversal of the sequence the history interface
returned (newest-first in, oldest-first out). -/
theorem c8_display_is_reversal (s : ChatState) (ms : List Msg) (i : Nat)
    (h : i < ms.length) :
    (loadMessages s (some ms)).messages = ms.reverse ∧
    (loadMessages s (some ms)).messages.length = ms.length ∧
    (loadMessages s (some ms)).messages[i]? = ms[ms.length - 1 - i]? := by
  refine ⟨rfl, by simp [loadMessages], ?_⟩
  show ms.reverse[i]? = ms[ms.length - 1 - i]?
  exact List.getElem?_reverse h

/-- Witness for C8 on a two-message response. -/
theorem c8_witness :
    (loadMessages emptyChat (some [m42, incomingMsg])).messages[0]?
      = [m42, incomingMsg][[m42, incomingMsg].length - 1 - 0]? :=
  (c8_display_is_reversal emptyChat [m42, incomingMsg] 0 (by decide)).2.2

/-- C1 counterexample: when the push echo of an optimistic "hello" send
arrives before the pull response, the handler appends it (its
authoritative id matches no existing entry, and no
sender+recipient+content+recency merge exists), and the later
placeholder replacement then leaves two entries carrying the
authoritative identifier `m42`. -/
theorem c1_counterexample :
    ((sendSuccess
        (handleWsMessage "alice@example.com" "bob@example.com" "T2"
          (sendAttempt "alice@example.com" "bob@example.com" emptyChat "hello"
            none "100" "T0").1 echoEvt).1
        ("temp-" ++ "100") m42).messages.countP
      (fun m => m.message_id = "m42")) = 2 := by decide

/-- C1 amended: deduplication is by authoritative message identifier
only; when the pull response returns before the push echo (Scenario E),
the echo is recognized as a duplicate and the client state contains
exactly one entry with the authoritative identifier. -/
theorem c1_amended_dedup_by_id (cur other ts : String) (s : ChatState)
    (content : String) (replyTo : Option String) (nowId nowTs : String)
    (nm : Msg) (e : WsEvent)
    (hc : ¬(content = "" ∨ jsTrim content = "" ∨ s.isSending = true))
    (hfresh : ∀ m ∈ s.messages, m.message_id ≠ "temp-" ++ nowId)
    (hnm : ∀ m ∈ s.messages, m.message_id ≠ nm.message_id)
    (htype : e.type = "new_message")
    (hdata : e.effData = nm)
    (hpair : pairMatches cur other nm) :
    (handleWsMessage cur other ts
        (sendSuccess (sendAttempt cur other s content replyTo nowId nowTs).1
          ("temp-" ++ nowId) nm) e).1.messages = s.messages ++ [nm] ∧
    ((handleWsMessage cur other ts
        (sendSuccess (sendAttempt cur other s content replyTo nowId nowTs).1
          ("temp-" ++ nowId) nm) e).1.messages.countP
      (fun m => m.message_id = nm.message_id)) = 1 := by
  have hafter := sendSuccess_messages cur other s content replyTo nowId nowTs nm hc hfresh
  have hany : ((sendSuccess (sendAttempt cur other s content replyTo nowId nowTs).1
      ("temp-" ++ nowId) nm).messages.any
        (fun m => m.message_id = nm.message_id)) = true := by
    rw [hafter]
    apply List.any_eq_true.2
    exact ⟨nm, List.mem_append_right _ (List.mem_singleton.2 rfl), by simp⟩
  have hmsgs : (handleWsMessage cur other ts
      (sendSuccess (sendAttempt cur other s content replyTo nowId nowTs).1
        ("temp-" ++ nowId) nm) e).1.messages
      = (sendSuccess (sendAttempt cur other s content replyTo nowId nowTs).1
        ("temp-" ++ nowId) nm).messages := by
    unfold handleWsMessage
    rw [if_pos (Or.inl htype), hdata, if_pos hpair, if_pos hany]
  rw [hmsgs, hafter]
  constructor
  · rfl
  · rw [List.countP_append]
    have h0 : s.messages.countP (fun m => m.message_id = nm.message_id) = 0 := by
      apply List.countP_eq_zero.2
      intro m hm
      simpa using hnm m hm
    rw [h0]
    simp

/-- Witness for the amended C1 on the concrete Scenario E run. -/
theorem c1_witness :
    ((handleWsMessage "alice@example.com" "bob@example.com" "T2"
        (sendSuccess (sendAttempt "alice@example.com" "bob@example.com"
            emptyChat "hello" none "100" "T0").1
          ("temp-" ++ "100") m42) echoEvt).1.messages.countP
      (fun m => m.message_id = m42.message_id)) = 1 :=
  (c1_amended_dedup_by_id "alice@example.com" "bob@example.com" "T2" emptyChat
    "hello" none "100" "T0" m42 echoEvt (by decide)
    (by intro m hm; cases hm) (by intro m hm; cases hm) rfl rfl
    (Or.inr ⟨rfl, rfl⟩)).2

/-- C2 counterexample: the open chat window, merely upon receiving a new
message from the conversation partner, immediately emits a `mark_read`
envelope for it — the incoming message is promoted towards Read by
receipt alone, and no explicit delivered acknowledgement precedes it. -/
theorem c2_counterexample :
    (handleWsMessage "alice@example.com" "bob@example.com" "T4" emptyChat
        incomingEvt).2 = [markAsRead "m7" "bob@example.com" "T4"] ∧
    (markAsRead "m7" "bob@example.com" "T4").type = "mark_read" := by decide

/-- C2 amended: for every incoming push message from the open
conversation's partner, the client emits exactly one `mark_read` event
for that message on receipt, and never emits a `mark_delivered`
acknowledgement from this handler. -/
theorem c2_amended_auto_read_on_receipt (cur other ts : String)
    (s : ChatState) (e : WsEvent)
    (htype : e.type = "new_message" ∨ e.type = "message")
    (hsender : e.effData.sender = other)
    (hrecip : e.effData.recipient = cur) :
    (handleWsMessage cur other ts s e).2
      = [markAsRead e.effData.message_id other ts] ∧
    (markAsRead e.effData.message_id other ts).type = "mark_read" ∧
    ∀ mid se t, markAsDelivered mid se t ∉ (handleWsMessage cur other ts s e).2 := by
  have houts : (handleWsMessage cur other ts s e).2
      = [markAsRead e.effData.message_id other ts] := by
    have hp : pairMatches cur other e.effData := Or.inl ⟨hsender, hrecip⟩
    unfold handleWsMessage
    rw [if_pos htype, if_pos hp, if_pos hsender]
  refine ⟨houts, rfl, ?_⟩
  intro mid se t hmem
  rw [houts] at hmem
  have := List.mem_singleton.1 hmem
  have htypes := congrArg OutMsg.type this
  simp [markAsDelivered, markAsRead] at htypes

/-- Witness for the amended C2 on a concrete incoming message. -/
theorem c2_witness :
    (handleWsMessage "alice@example.com" "bob@example.com" "T4" emptyChat
        incomingEvt).2
      = [markAsRead incomingEvt.effData.message_id "bob@example.com" "T4"] :=
  (c2_amended_auto_read_on_receipt "alice@example.com" "bob@example.com" "T4"
    emptyChat incomingEvt (Or.inl rfl) rfl rfl).1

/-- C9: a push event of unrecognized type, or a new-message event whose
sender/recipient pair is not the open conversation's pair, leaves the
displayed message list unchanged and causes no mark-read emission. -/
theorem c9_frame_irrelevant_events (cur other ts : String) (s : ChatState)
    (e : WsEvent)
    (h : (e.type ≠ "new_message" ∧ e.type ≠ "message" ∧ e.type ≠ "typing") ∨
         ((e.type = "new_message" ∨ e.type = "message") ∧
           ¬ pairMatches cur other e.effData)) :
    (handleWsMessage cur other ts s e).1.messages = s.messages ∧
    (handleWsMessage cur other ts s e).2 = [] := by
  unfold handleWsMessage
  rcases h with ⟨h1, h2, h3⟩ | ⟨h4, h5⟩
  · rw [if_neg (by simp [h1, h2]), if_neg h3]
    exact ⟨rfl, rfl⟩
  · rw [if_pos h4, if_neg h5]
    exact ⟨rfl, rfl⟩

/-- Witness for C9 on an unrecognized event type. -/
theorem c9_witness :
    (handleWsMessage "alice@example.com" "bob@example.com" "T5" emptyChat
        unknownEvt).1.messages = emptyChat.messages ∧
    (handleWsMessage "alice@example.com" "bob@example.com" "T5" emptyChat
        unknownEvt).2 = [] :=
  c9_frame_irrelevant_events "alice@example.com" "bob@example.com" "T5"
    emptyChat unknownEvt (Or.inl (by decide))

/-- One step of the reconnect machine preserves the safety invariant:
the attempt counter stays within the bound, and a pending timer implies
the bound is not yet reached. -/
lemma wsStep_inv (s : WsConnState) (e : WsEvt)
    (h1 : s.attempts ≤ maxReconnectAttempts)
    (h2 : s.timer.isSome = true → s.attempts < maxReconnectAttempts) :
    (wsStep s e).attempts ≤ maxReconnectAttempts ∧
      ((wsStep s e).timer.isSome = true →
        (wsStep s e).attempts < maxReconnectAttempts) := by
  cases e with
  | wsOpen =>
    exact ⟨Nat.zero_le _, fun _ => show (0 : Nat) < maxReconnectAttempts by decide⟩
  | wsClose =>
    have hstep : wsStep s WsEvt.wsClose =
        if s.attempts < maxReconnectAttempts then
          { s with connected := false, timer := some reconnectDelayMs }
        else { s with connected := false } := rfl
    by_cases hc : s.attempts < maxReconnectAttempts
    · rw [hstep, if_pos hc]
      exact ⟨h1, fun _ => hc⟩
    · rw [hstep, if_neg hc]
      exact ⟨h1, h2⟩
  | timerFire =>
    have hstep : wsStep s WsEvt.timerFire =
        (match s.timer with
         | some _ => { s with timer := none, attempts := s.attempts + 1 }
         | none => s) := rfl
    cases hts : s.timer with
    | none =>
      rw [hstep, hts]
      exact ⟨h1, h2⟩
    | some d =>
      rw [hstep, hts]
      refine ⟨h2 (by rw [hts]; rfl), fun hsome => ?_⟩
      simp at hsome

/-- The safety invariant holds after every trace. -/
lemma wsFoldl_inv (tr : List WsEvt) (s : WsConnState)
    (h : s.attempts ≤ maxReconnectAttempts ∧
      (s.timer.isSome = true → s.attempts < maxReconnectAttempts)) :
    (tr.foldl wsStep s).attempts ≤ maxReconnectAttempts ∧
      ((tr.foldl wsStep s).timer.isSome = true →
        (tr.foldl wsStep s).attempts < maxReconnectAttempts) := by
  induction tr generalizing s with
  | nil => exact h
  | cons e tr ih => exact ih _ (wsStep_inv s e h.1 h.2)

/-- A single non-open event moves neither the exhausted counter nor the
absent timer. -/
lemma wsStep_stuck (s : WsConnState) (e : WsEvt)
    (ha : s.attempts = maxReconnectAttempts) (ht : s.timer = none)
    (he : e ≠ WsEvt.wsOpen) :
    (wsStep s e).attempts = maxReconnectAttempts ∧ (wsStep s e).timer = none := by
  cases e with
  | wsOpen => exact absurd rfl he
  | wsClose =>
    have hstep : wsStep s WsEvt.wsClose =
        if s.attempts < maxReconnectAttempts then
          { s with connected := false, timer := some reconnectDelayMs }
        else { s with connected := false } := rfl
    rw [hstep, if_neg (by rw [ha]; exact Nat.lt_irrefl _)]
    exact ⟨ha, ht⟩
  | timerFire =>
    have hstep : wsStep s WsEvt.timerFire =
        (match s.timer with
         | some _ => { s with timer := none, attempts := s.attempts + 1 }
         | none => s) := rfl
    rw [hstep, ht]
    exact ⟨ha, ht⟩

/-- Once the attempt budget is exhausted and no timer is pending, no
sequence of closes and timer events (no successful open) ever schedules a
reconnect or moves the counter. -/
lemma wsStuck (tr : List WsEvt) (s : WsConnState)
    (ha : s.attempts = maxReconnectAttempts) (ht : s.timer = none)
    (hno : ∀ e ∈ tr, e ≠ WsEvt.wsOpen) :
    (tr.foldl wsStep s).attempts = maxReconnectAttempts ∧
      (tr.foldl wsStep s).timer = none := by
  induction tr generalizing s with
  | nil => exact ⟨ha, ht⟩
  | cons e tr ih =>
    have hstep := wsStep_stuck s e ha ht (hno e (List.mem_cons_self _ _))
    exact ih _ hstep.1 hstep.2 (fun x hx => hno x (List.mem_cons_of_mem _ hx))

/-- C3: over every event trace of the client reconnect machine, the
attempt counter never exceeds the bound of 5; a successful open resets
it to 0; an unexpected close schedules exactly one reconnect after the
fixed 3000 ms delay iff the bound is not yet reached; and once the bound
is reached, no trace without a successful open ever schedules another
reconnect. -/
theorem c3_reconnect_bounded (tr : List WsEvt) :
    (runWs tr).attempts ≤ maxReconnectAttempts ∧
    (∀ s : WsConnState, (wsStep s WsEvt.wsOpen).attempts = 0 ∧
      (wsStep s WsEvt.wsOpen).connected = true) ∧
    (wsStep (runWs tr) WsEvt.wsClose).timer =
      (if (runWs tr).attempts < maxReconnectAttempts then some reconnectDelayMs
       else none) ∧
    (∀ tr₂ : List WsEvt, (runWs tr).attempts = maxReconnectAttempts →
      (∀ e ∈ tr₂, e ≠ WsEvt.wsOpen) →
      (runWs (tr ++ tr₂)).timer = none ∧
        (runWs (tr ++ tr₂)).attempts = maxReconnectAttempts) := by
  have hinv : (runWs tr).attempts ≤ maxReconnectAttempts ∧
      ((runWs tr).timer.isSome = true →
        (runWs tr).attempts < maxReconnectAttempts) :=
    wsFoldl_inv tr wsInit ⟨Nat.zero_le _, fun _ => by decide⟩
  have hclose : wsStep (runWs tr) WsEvt.wsClose =
      if (runWs tr).attempts < maxReconnectAttempts then
        { runWs tr with connected := false, timer := some reconnectDelayMs }
      else { runWs tr with connected := false } := rfl
  have htimer : ¬ (runWs tr).attempts < maxReconnectAttempts →
      (runWs tr).timer = none := by
    intro hc
    cases hts : (runWs tr).timer with
    | none => rfl
    | some d => exact absurd (hinv.2 (by rw [hts]; rfl)) hc
  refine ⟨hinv.1, fun s => ⟨rfl, rfl⟩, ?_, ?_⟩
  · by_cases hc : (runWs tr).attempts < maxReconnectAttempts
    · rw [if_pos hc, hclose, if_pos hc]
    · rw [if_neg hc, hclose, if_neg hc]
      exact htimer hc
  · intro tr₂ ha hno
    have htn : (runWs tr).timer = none :=
      htimer (by rw [ha]; exact Nat.lt_irrefl _)
    have hstuck := wsStuck tr₂ (runWs tr) ha htn hno
    have hrun : runWs (tr ++ tr₂) = tr₂.foldl wsStep (runWs tr) := by
      rw [runWs, runWs, List.foldl_append]
    rw [hrun]
    exact ⟨hstuck.2, hstuck.1⟩

/-- Witness for C3: after five close/fire rounds the counter sits at the
bound; a further close and timer event schedules nothing. -/
theorem c3_witness :
    (runWs (exhaustedTrace ++ [WsEvt.wsClose, WsEvt.timerFire])).timer = none ∧
    (runWs (exhaustedTrace ++ [WsEvt.wsClose, WsEvt.timerFire])).attempts
      = maxReconnectAttempts :=
  (c3_reconnect_bounded exhaustedTrace).2.2.2 [WsEvt.wsClose, WsEvt.timerFire]
    (by decide) (by decide)

/-- The processed chat list always starts with a bot entry that is
forced online, followed by exactly the non-bot chats. -/
lemma processedChats_shape (now : String) (chats : List ChatEntry) :
    ∃ hd, processedChats now chats
        = hd :: chats.filter (fun c => ¬ c.other_user_email = botEmail) ∧
      hd.other_user_email = botEmail ∧ hd.is_online = true := by
  refine ⟨_, rfl, ?_, rfl⟩
  cases hf : chats.find? (fun c => c.other_user_email = botEmail) with
  | none => rfl
  | some c =>
    show c.other_user_email = botEmail
    have := List.find?_some hf
    simpa using this

/-- The bot identity occurs exactly once in the processed chat list. -/
lemma processedChats_count (now : String) (chats : List ChatEntry) :
    (processedChats now chats).countP
      (fun c => c.other_user_email = botEmail) = 1 := by
  obtain ⟨hd, heq, hbot, _⟩ := processedChats_shape now chats
  rw [heq, List.countP_cons]
  have h0 : (chats.filter (fun c => ¬ c.other_user_email = botEmail)).countP
      (fun c => c.other_user_email = botEmail) = 0 := by
    apply List.countP_eq_zero.2
    intro c hc
    have := (List.mem_filter.1 hc).2
    simp at this ⊢
    exact this
  rw [h0]
  simp [hbot]

/-- C6: in every chat list the client renders, the automated
correspondent appears exactly once, at the head, always online — also
after any registry-driven presence-change event has been applied to the
dashboard state — and chat selection likewise reports the bot online. -/
theorem c6_bot_always_online (now : String) (chats : List ChatEntry)
    (email : String) (b : Bool) (onlineUsers : List String) (chat : ChatEntry)
    (hbot : chat.other_user_email = botEmail) :
    (processedChats now chats).countP
      (fun c => c.other_user_email = botEmail) = 1 ∧
    (∃ hd tl, processedChats now chats = hd :: tl ∧
      hd.other_user_email = botEmail ∧ hd.is_online = true) ∧
    (∃ hd tl, processedChats now (applyStatusChange chats email b) = hd :: tl ∧
      hd.other_user_email = botEmail ∧ hd.is_online = true) ∧
    (handleChatSelect onlineUsers chat).is_online = true := by
  refine ⟨processedChats_count now chats, ?_, ?_, ?_⟩
  · obtain ⟨hd, heq, h1, h2⟩ := processedChats_shape now chats
    exact ⟨hd, _, heq, h1, h2⟩
  · obtain ⟨hd, heq, h1, h2⟩ :=
      processedChats_shape now (applyStatusChange chats email b)
    exact ⟨hd, _, heq, h1, h2⟩
  · unfold handleChatSelect
    simp [hbot]

/-- Witness for C6: selecting the fabricated bot chat reports it
online. -/
theorem c6_witness :
    (handleChatSelect [] (defaultBotChat "T")).is_online = true :=
  (c6_bot_always_online "T" [] "x@example.com" false [] (defaultBotChat "T")
    rfl).2.2.2

/-- `utcToLocal` is the raw parse guarded by JS falsiness. -/
lemma utcToLocal_eq (parse : String → Option Int) (v : TSInput) :
    utcToLocal parse v
      = if jsFalsy v then none else parsedValue parse v := by
  cases v <;> rfl

/-- C10 counterexample: the numeric timestamp 0 is neither missing nor
unparsable (it denotes the epoch), yet `utcToLocal` returns null for it,
because the guard tests JS falsiness rather than absence. -/
theorem c10_counterexample :
    utcToLocal (fun _ => none) (TSInput.num 0) = none ∧
    TSInput.num 0 ≠ TSInput.tsNull ∧
    TSInput.num 0 ≠ TSInput.tsUndef ∧
    parsedValue (fun _ => none) (TSInput.num 0) = some 0 := by
  refine ⟨rfl, by decide, by decide, rfl⟩

/-- C10 amended: every formatter returns the empty string whenever
`utcToLocal` yields null (totality over bad input); `utcToLocal` yields
null exactly when the input is JS-falsy (null, undefined, the empty
string, or the number 0) or does not parse to a valid date; and string
timestamps are parsed as UTC, with `'Z'` appended exactly when not
already present. -/
theorem c10_amended_formatters_total (parse : String → Option Int)
    (renderTime renderDate renderDateTime renderWeekday renderMonthDay
      renderLongDate : Int → String)
    (dateOnly : Int → Int) (now : Int) (v : TSInput) (s : String) :
    (utcToLocal parse v = none →
      formatTime parse renderTime v = "" ∧
      formatDate parse renderDate v = "" ∧
      formatDateTime parse renderDateTime v = "" ∧
      formatRelativeTime parse renderDate now v = "" ∧
      formatChatTimestamp parse renderWeekday renderMonthDay now v = "" ∧
      getTimeAgo parse renderDate now v = "" ∧
      getDateSeparator parse dateOnly renderWeekday renderLongDate now v = "") ∧
    (utcToLocal parse v = none ↔
      (jsFalsy v = true ∨ parsedValue parse v = none)) ∧
    (endsWithZ s = false → s ≠ "" →
      utcToLocal parse (TSInput.str s) = parse (s ++ "Z")) ∧
    (endsWithZ s = true → utcToLocal parse (TSInput.str s) = parse s) := by
  refine ⟨fun h => ?_, ?_, fun hz hne => ?_, fun hz => ?_⟩
  · refine ⟨?_, ?_, ?_, ?_, ?_, ?_, ?_⟩
    · unfold formatTime; rw [h]
    · unfold formatDate; rw [h]
    · unfold formatDateTime; rw [h]
    · unfold formatRelativeTime; rw [h]
    · unfold formatChatTimestamp; rw [h]
    · unfold getTimeAgo; rw [h]
    · unfold getDateSeparator; rw [h]
  · rw [utcToLocal_eq]
    cases hf : jsFalsy v with
    | true => simp [hf]
    | false => simp [hf]
  · have hf : jsFalsy (TSInput.str s) = false := by simp [jsFalsy, hne]
    simp [utcToLocal, jsFalsy, hne, hz]
  · have hne : s ≠ "" := by
      intro he
      rw [he] at hz
      exact absurd hz (by decide)
    simp [utcToLocal, jsFalsy, hne, hz]

/-- Witness for the amended C10: a null input renders as the empty
string, and a string without the UTC suffix is parsed with `'Z'`
appended. -/
theorem c10_witness :
    formatTime (fun _ => none) (fun _ => "12:00 AM") TSInput.tsNull = "" ∧
    utcToLocal (fun _ => some 0) (TSInput.str "2024-01-01T00:00:00")
      = (fun _ => (some 0 : Option Int)) ("2024-01-01T00:00:00" ++ "Z") :=
  ⟨((c10_amended_formatters_total (fun _ => none) (fun _ => "12:00 AM")
      (fun _ => "") (fun _ => "") (fun _ => "") (fun _ => "") (fun _ => "")
      (fun d => d) 0 TSInput.tsNull "x").1 rfl).1,
   (c10_amended_formatters_total (fun _ => some 0) (fun _ => "") (fun _ => "")
      (fun _ => "") (fun _ => "") (fun _ => "") (fun _ => "") (fun d => d) 0
      TSInput.tsNull "2024-01-01T00:00:00").2.2.1 (by decide) (by decide)⟩

end WhatsEase
